import Mathlib

/-!
# Chat client (`client/src/App.jsx`): provider detection and the send cycle

A shallow embedding of the `App` component's session state and of its event
handlers: `detectProvider` over `PROVIDER_MAP`, `sendMessage`, and the three
button handlers (start chat, clear chat, change key).

JavaScript strings are modelled by `String`. React state is one record,
`State`; a `setX(v)` call is a record update, and a handler is a function on
`State`. The network (`fetch`, `response.json()`) is an input of the model.
-/

namespace App

/-! ## JavaScript strings -/

/-- The code points that `String.prototype.trim` strips: the ECMAScript
WhiteSpace and LineTerminator productions. -/
def isJsWhitespace (c : Char) : Bool :=
  let n := c.toNat
  n == 0x09 || n == 0x0A || n == 0x0B || n == 0x0C || n == 0x0D || n == 0x20 ||
  n == 0xA0 || n == 0x1680 || (0x2000 ≤ n && n ≤ 0x200A) || n == 0x2028 ||
  n == 0x2029 || n == 0x202F || n == 0x205F || n == 0x3000 || n == 0xFEFF

/-- Strip trailing white space from a list of characters. -/
def trimEndChars (cs : List Char) : List Char :=
  (cs.reverse.dropWhile isJsWhitespace).reverse

/-- The method `key.trim()`: strip leading and trailing white space. -/
def jsTrim (s : String) : String :=
  ⟨trimEndChars (s.data.dropWhile isJsWhitespace)⟩

/-- The method `key.startsWith(p)`. -/
def jsStartsWith (s p : String) : Bool :=
  p.data.isPrefixOf s.data

/-- Does `p` occur in `cs` as a contiguous run, starting at some position? -/
def includesChars (p : List Char) : List Char → Bool
  | [] => p.isPrefixOf []
  | c :: cs => p.isPrefixOf (c :: cs) || includesChars p cs

/-- The method `key.includes(p)`. -/
def jsIncludes (s p : String) : Bool :=
  includesChars p.data s.data

/-- Truthiness of a string: every string but the empty one. -/
def strTruthy (s : String) : Bool :=
  !(s == "")

/-! ## JavaScript objects with string values (header maps) -/

/-- An object whose values are strings, as the list of its members in source
order: a repeated key reads as its last member. -/
abbrev Headers := List (String × String)

/-- Reading a property: `o[k]`. -/
def Headers.get : Headers → String → Option String
  | [], _ => none
  | (a, b) :: rest, k =>
    match Headers.get rest k with
    | some v => some v
    | none => if a == k then some b else none

/-- Writing a property: `o[k] = v` replaces the value of an existing key and
adds a new key otherwise. -/
def Headers.set (o : Headers) (k v : String) : Headers :=
  if o.any (fun p => p.1 == k) then o.map (fun p => if p.1 == k then (k, v) else p)
  else o ++ [(k, v)]

/-- Object spread: `{ ...o, ...src }` writes the properties of `src` over
those of `o`, in order. -/
def Headers.spread (o src : Headers) : Headers :=
  src.foldl (fun acc p => acc.set p.1 p.2) o

/-! ## The provider registry -/

/-- One entry of `PROVIDER_MAP`. -/
structure Provider where
  name : String
  «match» : String → Bool
  baseUrl : String
  model : String
  headers : Headers

/-- The array `PROVIDER_MAP` (lines 12-57), entries in source order. -/
def PROVIDER_MAP : List Provider :=
  [ { name := "OpenAI"
      «match» := fun key => jsStartsWith key "sk-"
      baseUrl := "https://api.openai.com/v1"
      model := "gpt-3.5-turbo"
      headers := [] },
    { name := "Groq"
      «match» := fun key => jsStartsWith key "gsk_"
      baseUrl := "https://api.groq.com/openai/v1"
      model := "llama3-8b-8192"
      headers := [] },
    { name := "Anthropic"
      «match» := fun key => jsStartsWith key "sk-ant-"
      baseUrl := "https://api.anthropic.com/v1"
      model := "claude-3-opus-20240229"
      headers := [("anthropic-version", "2023-06-01")] },
    { name := "Mistral"
      «match» := fun key => jsIncludes key "mistral"
      baseUrl := "https://api.mistral.ai/v1"
      model := "mistral-small"
      headers := [] },
    { name := "TogetherAI"
      «match» := fun key => jsStartsWith key "together-"
      baseUrl := "https://api.together.xyz/v1"
      model := "mistralai/Mixtral-8x7B-Instruct-v0.1"
      headers := [] },
    { name := "Fireworks"
      «match» := fun key => jsStartsWith key "fk-"
      baseUrl := "https://api.fireworks.ai/inference/v1"
      model := "accounts/fireworks/models/llama-v2-7b-chat"
      headers := [] } ]

/-! ## JSON values and the property reads made on them -/

/-- A number as `JSON.parse` returns it, by the two things this program
observes of it: whether it is zero (its truthiness) and its rendering by
`ToString`. -/
structure JsNumber where
  isZero : Bool
  text : String

/-- A value returned by `JSON.parse`; `undefined` is `none` of `Option Json`.
An object is the list of its members in source order: a repeated key reads as
its last member. -/
inductive Json where
  | null
  | bool (b : Bool)
  | num (n : JsNumber)
  | str (s : String)
  | arr (xs : List Json)
  | obj (members : List (String × Json))

namespace Json

/-- Truthiness, as tested by `||`. Arrays and objects are truthy. -/
def truthy : Json → Bool
  | null => false
  | bool b => b
  | num n => !n.isZero
  | str s => strTruthy s
  | arr _ => true
  | obj _ => true

/-- The read `v.name` on a value that is neither `null` nor `undefined`, for
the names this program reads (`error`, `message`, `choices`, `content`), none
of which a built-in prototype defines: only an object has such a property. -/
def prop (v : Json) (name : String) : Option Json :=
  match v with
  | obj members => (members.reverse.find? (fun p => p.1 == name)).map (fun p => p.2)
  | _ => none

/-- The read `v[0]` on a value that is neither `null` nor `undefined`: the
first element of an array, the first character of a string, the member `"0"`
of an object. -/
def index0 (v : Json) : Option Json :=
  match v with
  | arr xs => xs.head?
  | str s => s.data.head?.map (fun c => str (String.singleton c))
  | obj members => (members.reverse.find? (fun p => p.1 == "0")).map (fun p => p.2)
  | _ => none

mutual
/-- The conversion `ToString`, as applied by a template literal; `none` when
it throws a `TypeError`. An object is converted by its `toString`: the one of
`Object.prototype` gives `[object Object]`, but an own member of that name
hides it, is not callable (no JSON value is), and whether `valueOf` is then
an own member or the inherited one, which returns the object, no primitive
comes out and the conversion throws. An array is converted by `join`, which
converts its elements in turn. The limits of the engine (stack depth, string
length) are not modelled. -/
def render : Json → Option String
  | null => some "null"
  | bool b => some (if b then "true" else "false")
  | num n => some n.text
  | str s => some s
  | arr xs => (renderElems xs).map (fun pieces => ",".intercalate pieces)
  | obj members =>
    if members.any (fun p => p.1 == "toString") then none else some "[object Object]"
/-- The pieces `Array.prototype.join` puts between commas: a `null` element
gives the empty string; `none` when the conversion of an element throws. -/
def renderElems : List Json → Option (List String)
  | [] => some []
  | null :: xs => (renderElems xs).map (fun pieces => "" :: pieces)
  | x :: xs =>
    match render x, renderElems xs with
    | some piece, some pieces => some (piece :: pieces)
    | _, _ => none
end

end Json

/-- Optional chaining `v?.name`. -/
def optProp (v : Option Json) (name : String) : Option Json :=
  match v with
  | none => none
  | some Json.null => none
  | some w => w.prop name

/-- Optional chaining `v?.[0]`. -/
def optIndex0 (v : Option Json) : Option Json :=
  match v with
  | none => none
  | some Json.null => none
  | some w => w.index0

/-- The expression `v || d` with a string literal `d`. -/
def orElse (v : Option Json) (d : String) : Json :=
  match v with
  | none => Json.str d
  | some w => if w.truthy then w else Json.str d

/-! ## Session state -/

/-- The `role` of a message. -/
inductive Role where
  | user
  | assistant
  deriving DecidableEq

/-- An entry of `messages`. The content of a user message is the input
string; that of an assistant message is whatever `sendMessage` stored. -/
structure Message where
  role : Role
  content : Json

/-- The `useState` cells of `App` (lines 60-69), in source order. -/
structure State where
  messages : List Message
  input : String
  isLoading : Bool
  apiKey : String
  baseUrl : String
  model : String
  extraHeaders : Headers
  providerName : String
  manualMode : Bool
  showApiKeyInput : Bool

/-- The initial values passed to `useState`. -/
def initialState : State :=
  { messages := []
    input := ""
    isLoading := false
    apiKey := ""
    baseUrl := ""
    model := ""
    extraHeaders := []
    providerName := ""
    manualMode := false
    showApiKeyInput := true }

/-! ## `detectProvider` (lines 78-91) -/

/-- The `for ... of` loop of `detectProvider` over the remaining providers,
followed by the two statements after the loop. -/
def detectProviderLoop (key : String) : List Provider → State → State
  | [], s =>
    let s := { s with manualMode := true }
    { s with providerName := "Unknown" }
  | provider :: rest, s =>
    if provider.«match» key then
      let s := { s with baseUrl := provider.baseUrl }
      let s := { s with model := provider.model }
      let s := { s with extraHeaders := provider.headers }
      let s := { s with providerName := provider.name }
      { s with manualMode := false }
    else detectProviderLoop key rest s

/-- The function `detectProvider(key)`. -/
def detectProvider (key : String) (s : State) : State :=
  detectProviderLoop key PROVIDER_MAP s

/-! ## `sendMessage` (lines 93-147) -/

/-- The object passed to `JSON.stringify` for the request body. The literal
`0.7` is the decimal it is written as on the wire. -/
structure ChatBody where
  model : String
  messages : List Message
  max_tokens : Nat
  temperature : ℚ

/-- The arguments of the `fetch` call. -/
structure Request where
  url : String
  method : String
  headers : Headers
  body : ChatBody

/-- What the two awaits of `sendMessage` can produce: `fetch` rejects with an
error of the given `message`; or it resolves to a response with the given
`ok`, whose `json()` resolves to a value or rejects with an error of the given
`message`. -/
inductive Outcome where
  | rejected (message : String)
  | response (ok : Bool) (json : Except String Json)

/-- The surroundings of a send: the network, and the `message` of the two
`TypeError`s the engine can raise here, on reading a property of `null` and
on converting to a string an object that has no primitive value. -/
structure Env where
  net : Request → Outcome
  nullReadMessage : String
  toPrimitiveMessage : String

/-- How the synchronous part of `sendMessage` ends: it returns (after an
`alert` or without one), or it reaches `await fetch(...)` with the state it has
set, the captured `newMessages`, and the request. -/
inductive Started where
  | returned (alert : Option String)
  | awaiting (s : State) (newMessages : List Message) (req : Request)

/-- The constant `userMessage` of line 102. -/
def userMessage (s : State) : Message :=
  { role := .user, content := .str s.input }

/-- The constant `newMessages` of line 103. -/
def newMessages (s : State) : List Message :=
  s.messages ++ [userMessage s]

/-- The arguments of the `fetch` call of lines 109-123. -/
def fetchArgs (s : State) : Request :=
  { url := s.baseUrl ++ "/chat/completions"
    method := "POST"
    headers :=
      Headers.spread
        [("Content-Type", "application/json"), ("Authorization", "Bearer " ++ s.apiKey)]
        s.extraHeaders
    body :=
      { model := s.model
        messages := newMessages s
        max_tokens := 1000
        temperature := 7 / 10 } }

/-- Lines 95-123: the guards, the optimistic append, and the `fetch` call. -/
def sendMessageStart (s : State) : Started :=
  if !strTruthy (jsTrim s.input) || s.isLoading then .returned none
  else if !strTruthy s.apiKey || !strTruthy s.baseUrl || !strTruthy s.model then
    .returned (some "Faltan datos necesarios: API Key, modelo o URL")
  else
    let s1 := { s with messages := newMessages s }
    let s1 := { s1 with input := "" }
    let s1 := { s1 with isLoading := true }
    .awaiting s1 (newMessages s) (fetchArgs s)

/-- The expression `data?.error?.message` of line 129. -/
def errorMessage (data : Json) : Option Json :=
  optProp (optProp (some data) "error") "message"

/-- The expression `data.choices?.[0]?.message?.content` of line 137, for a
`data` other than `null`. -/
def firstChoiceContent (data : Json) : Option Json :=
  optProp (optProp (optIndex0 (data.prop "choices")) "message") "content"

/-- How the body of `try` ends: at the `return` of line 134, at its last
statement, or by a thrown error, kept by its `message`. -/
inductive TryResult where
  | returned (s : State)
  | completed (s : State)
  | threw (message : String)

/-- Lines 109-138, the body of `try` from the point where `fetch` settles.
The template literal of line 132 converts `msg` to a string, which can
throw. -/
def tryBlock (nullReadMessage toPrimitiveMessage : String) (newMessages : List Message)
    (o : Outcome) (s : State) : TryResult :=
  match o with
  | .rejected message => .threw message
  | .response _ (.error message) => .threw message
  | .response ok (.ok data) =>
    if !ok then
      let msg := orElse (errorMessage data) "Error desconocido"
      match msg.render with
      | none => .threw toPrimitiveMessage
      | some text =>
        .returned { s with messages :=
          newMessages ++ [{ role := .assistant, content := .str ("❌ Error: " ++ text) }] }
    else
      match data with
      | .null => .threw nullReadMessage
      | _ =>
        let reply := orElse (firstChoiceContent data) "❌ Respuesta vacía"
        .completed { s with messages := newMessages ++ [{ role := .assistant, content := reply }] }

/-- Lines 108-147 from the point where `fetch` settles: `try`, `catch`, and
the statement after them, which a `return` inside `try` skips. -/
def sendMessageResume (nullReadMessage toPrimitiveMessage : String)
    (newMessages : List Message) (o : Outcome) (s : State) : State :=
  match tryBlock nullReadMessage toPrimitiveMessage newMessages o s with
  | .returned s2 => s2
  | .completed s2 => { s2 with isLoading := false }
  | .threw message =>
    let s2 : State := { s with messages :=
      newMessages ++ [{ role := .assistant, content := .str ("❌ Error de red: " ++ message) }] }
    { s2 with isLoading := false }

/-- A completed call: the final state, the requests issued and the alerts
shown. -/
structure Run where
  state : State
  requests : List Request
  alerts : List String

/-- One call of `sendMessage()` run to completion, no other handler running
during the await. -/
def sendMessage (env : Env) (s : State) : Run :=
  match sendMessageStart s with
  | .returned none => { state := s, requests := [], alerts := [] }
  | .returned (some text) => { state := s, requests := [], alerts := [text] }
  | .awaiting s1 newMessages req =>
    { state :=
        sendMessageResume env.nullReadMessage env.toPrimitiveMessage newMessages (env.net req) s1
      requests := [req]
      alerts := [] }

/-! ## The button handlers -/

/-- The handler of "Start chat" (lines 175-178). -/
def submitKey (s : State) : State :=
  let s := detectProvider s.apiKey s
  { s with showApiKeyInput := false }

/-- The handler of the clear-chat button (line 229). -/
def clearHistory (s : State) : State :=
  { s with messages := [] }

/-- The handler of "Change API Key" (line 236). -/
def resetKey (s : State) : State :=
  { s with showApiKeyInput := true }

/-! ## The preconditions of a send -/

/-- The preconditions of a send: the input is not blank, no request is
pending, and key, base URL and model are not empty. -/
def CanSend (s : State) : Prop :=
  jsTrim s.input ≠ "" ∧ s.isLoading = false ∧ s.apiKey ≠ "" ∧ s.baseUrl ≠ "" ∧ s.model ≠ ""

instance (s : State) : Decidable (CanSend s) :=
  inferInstanceAs (Decidable (_ ∧ _ ∧ _ ∧ _ ∧ _))

/-! ## Sample sessions and responses -/

/-- The session after typing `key`, pressing "Start chat", and typing `text`
into the message box. -/
def chatting (key text : String) : State :=
  { submitKey { initialState with apiKey := key } with input := text }

/-- A network that settles every request with `o`, on an engine with V8's
wording of the two `TypeError`s. -/
def envOf (o : Outcome) : Env :=
  { net := fun _ => o
    nullReadMessage := "Cannot read properties of null (reading 'choices')"
    toPrimitiveMessage := "Cannot convert object to primitive value" }

/-- The body `{"choices":[{"message":{"content":"hi"}}]}`. -/
def hiBody : Json :=
  .obj [("choices", .arr [.obj [("message", .obj [("content", .str "hi")])]])]

/-- The body `{"error":{"message":"bad key"}}`. -/
def badKeyBody : Json :=
  .obj [("error", .obj [("message", .str "bad key")])]

/-- The body `{"error":{"message":{"toString":1}}}`, whose `error.message`
cannot be converted to a string. -/
def unprintableBody : Json :=
  .obj [("error", .obj [("message", .obj [("toString", .num ⟨false, "1"⟩)])])]

/-- The session `chatting key text` with the Anthropic headers as its extra
headers. -/
def chattingWithVersionHeader (key text : String) : State :=
  { chatting key text with extraHeaders := [("anthropic-version", "2023-06-01")] }

/-! ## Lemmas on the guards of `sendMessage` -/

/-- When the preconditions hold, the synchronous part reaches the `fetch`. -/
theorem sendMessageStart_of_canSend (s : State) (h : CanSend s) :
    sendMessageStart s =
      .awaiting { s with messages := newMessages s, input := "", isLoading := true }
        (newMessages s) (fetchArgs s) := by
  obtain ⟨h1, h2, h3, h4, h5⟩ := h
  simp [sendMessageStart, strTruthy, h1, h2, h3, h4, h5]

/-- When a precondition fails, the synchronous part returns. -/
theorem sendMessageStart_of_not_canSend (s : State)
    (h : jsTrim s.input = "" ∨ s.isLoading = true ∨ s.apiKey = "" ∨ s.baseUrl = "" ∨
      s.model = "") :
    ∃ a, sendMessageStart s = .returned a := by
  unfold sendMessageStart
  split
  · exact ⟨_, rfl⟩
  · split
    · exact ⟨_, rfl⟩
    · rename_i h1 h2
      simp [strTruthy] at h1 h2
      rcases h with h | h | h | h | h
      · exact absurd h h1.1
      · simp [h] at h1
      · exact absurd h h2.1.1
      · exact absurd h h2.1.2
      · exact absurd h h2.2

/-- A send whose preconditions hold issues the one request `fetchArgs s` and
ends in the state the continuation computes. -/
theorem sendMessage_of_canSend (env : Env) (s : State) (h : CanSend s) :
    sendMessage env s =
      { state := sendMessageResume env.nullReadMessage env.toPrimitiveMessage (newMessages s)
          (env.net (fetchArgs s))
          { s with messages := newMessages s, input := "", isLoading := true }
        requests := [fetchArgs s]
        alerts := [] } := by
  simp [sendMessage, sendMessageStart_of_canSend s h]

/-! ## Provider detection -/

/-- The loop falls through to manual mode when no remaining provider
matches, and then writes only `manualMode` and `providerName`. -/
theorem detectProviderLoop_no_match (key : String) (ps : List Provider) (s : State)
    (h : ∀ p ∈ ps, p.«match» key = false) :
    detectProviderLoop key ps s = { s with manualMode := true, providerName := "Unknown" } := by
  induction ps with
  | nil => rfl
  | cons p rest ih =>
    have hp : p.«match» key = false := h p (List.mem_cons_self _ _)
    have hrest : ∀ q ∈ rest, q.«match» key = false :=
      fun q hq => h q (List.mem_cons_of_mem _ hq)
    simp [detectProviderLoop, hp, ih hrest]

/-- C1, where the code departs from the claim: the `sk-` entry stands before
the `sk-ant-` entry in `PROVIDER_MAP`, so every key that starts with `sk-ant-`
is classified as OpenAI, with the OpenAI base URL and model and no extra
header, whatever the state before. -/
theorem detectProvider_sk_ant_is_openai (key : String) (s : State)
    (h : jsStartsWith key "sk-ant-" = true) :
    (detectProvider key s).providerName = "OpenAI" ∧
      (detectProvider key s).baseUrl = "https://api.openai.com/v1" ∧
      (detectProvider key s).model = "gpt-3.5-turbo" ∧
      (detectProvider key s).extraHeaders = [] ∧
      (detectProvider key s).manualMode = false := by
  have hsk : jsStartsWith key "sk-" = true := by
    unfold jsStartsWith at h ⊢
    rw [ List.isPrefixOf_iff_prefix] at h ⊢
    exact List.IsPrefix.trans (by decide) h
  simp [detectProvider, PROVIDER_MAP, detectProviderLoop, hsk]

/-- C1 at the key `sk-ant-xyz`. -/
theorem detectProvider_sk_ant_is_openai_witness :
    jsStartsWith "sk-ant-xyz" "sk-ant-" = true ∧
      ((detectProvider "sk-ant-xyz" initialState).providerName = "OpenAI" ∧
        (detectProvider "sk-ant-xyz" initialState).baseUrl = "https://api.openai.com/v1" ∧
        (detectProvider "sk-ant-xyz" initialState).model = "gpt-3.5-turbo" ∧
        (detectProvider "sk-ant-xyz" initialState).extraHeaders = [] ∧
        (detectProvider "sk-ant-xyz" initialState).manualMode = false) :=
  ⟨by decide, detectProvider_sk_ant_is_openai "sk-ant-xyz" initialState (by decide)⟩

/-- C3 as stated fails: after a session keyed with `sk-abc`, classifying the
key `abc`, which matches no provider, sets manual mode and the label
`Unknown` but leaves the OpenAI base URL and model in place. -/
theorem detectProvider_no_match_keeps_previous_params :
    (∀ p ∈ PROVIDER_MAP, p.«match» "abc" = false) ∧
      (detectProvider "abc" (resetKey (chatting "sk-abc" ""))).manualMode = true ∧
      (detectProvider "abc" (resetKey (chatting "sk-abc" ""))).providerName = "Unknown" ∧
      (detectProvider "abc" (resetKey (chatting "sk-abc" ""))).baseUrl
        = "https://api.openai.com/v1" ∧
      (detectProvider "abc" (resetKey (chatting "sk-abc" ""))).model = "gpt-3.5-turbo" ∧
      ¬ ((detectProvider "abc" (resetKey (chatting "sk-abc" ""))).baseUrl = "" ∧
          (detectProvider "abc" (resetKey (chatting "sk-abc" ""))).model = "") := by
  decide

/-- C3, amended: for a key that matches no provider, and from every state,
`detectProvider` sets `manualMode` to true and the label to `Unknown`, and
leaves base URL, model, extra headers and every other cell as they were; so
base URL and model are empty after it exactly when they were empty before. -/
theorem detectProvider_no_match (key : String) (s : State)
    (h : ∀ p ∈ PROVIDER_MAP, p.«match» key = false) :
    detectProvider key s = { s with manualMode := true, providerName := "Unknown" } ∧
      (detectProvider key s).baseUrl = s.baseUrl ∧
      (detectProvider key s).model = s.model ∧
      (detectProvider key s).extraHeaders = s.extraHeaders := by
  have e := detectProviderLoop_no_match key PROVIDER_MAP s h
  unfold detectProvider
  rw [e]
  exact ⟨rfl, rfl, rfl, rfl⟩

/-- C3, amended, at the key `abc` and the initial state: base URL and model
stay empty. -/
theorem detectProvider_no_match_witness :
    (∀ p ∈ PROVIDER_MAP, p.«match» "abc" = false) ∧
      (detectProvider "abc" initialState
          = { initialState with manualMode := true, providerName := "Unknown" } ∧
        (detectProvider "abc" initialState).baseUrl = initialState.baseUrl ∧
        (detectProvider "abc" initialState).model = initialState.model ∧
        (detectProvider "abc" initialState).extraHeaders = initialState.extraHeaders) :=
  ⟨by decide, detectProvider_no_match "abc" initialState (by decide)⟩

/-! ## The send cycle -/

/-- C2, where the code departs from the claim: when the preconditions hold
and the response is a non-success one whose body parses, the pending flag is
still true when `sendMessage` completes, whenever the error text of line 129
converts to a string (as every absent, falsy, string, number or boolean
`error.message` does): `sendMessage` returns at line 134, before
`setIsLoading(false)`. Only when that conversion throws does the catch run
and the flag end false. -/
theorem sendMessage_error_response_keeps_loading (env : Env) (s : State) (data : Json)
    (hs : CanSend s) (hnet : env.net (fetchArgs s) = .response false (.ok data)) :
    (∀ text, (orElse (errorMessage data) "Error desconocido").render = some text →
      (sendMessage env s).state.isLoading = true) ∧
    ((orElse (errorMessage data) "Error desconocido").render = none →
      (sendMessage env s).state.isLoading = false) := by
  rw [sendMessage_of_canSend env s hs]
  constructor
  · intro text hrender
    simp [sendMessageResume, tryBlock, hnet, hrender]
  · intro hrender
    simp [sendMessageResume, tryBlock, hnet, hrender]

/-- C2 at a session keyed with `sk-abc`, the text `hello` and the response
body `{"error":{"message":"bad key"}}`: the flag stays true. -/
theorem sendMessage_error_response_keeps_loading_witness :
    CanSend (chatting "sk-abc" "hello") ∧
      (envOf (.response false (.ok badKeyBody))).net (fetchArgs (chatting "sk-abc" "hello"))
        = .response false (.ok badKeyBody) ∧
      (orElse (errorMessage badKeyBody) "Error desconocido").render = some "bad key" ∧
      (sendMessage (envOf (.response false (.ok badKeyBody)))
        (chatting "sk-abc" "hello")).state.isLoading = true :=
  ⟨by decide, rfl, rfl,
    (sendMessage_error_response_keeps_loading (envOf (.response false (.ok badKeyBody)))
      (chatting "sk-abc" "hello") badKeyBody (by decide) rfl).1 "bad key" rfl⟩

/-- C4: when the input is blank after trimming, or a request is pending, or
the key, the base URL or the model is empty, `sendMessage` leaves the whole
state as it was, in particular the history and the pending flag, and issues no
request. -/
theorem sendMessage_noop_of_failed_precondition (env : Env) (s : State)
    (h : jsTrim s.input = "" ∨ s.isLoading = true ∨ s.apiKey = "" ∨ s.baseUrl = "" ∨
      s.model = "") :
    (sendMessage env s).state = s ∧
      (sendMessage env s).state.messages = s.messages ∧
      (sendMessage env s).state.isLoading = s.isLoading ∧
      (sendMessage env s).requests = [] := by
  obtain ⟨a, ha⟩ := sendMessageStart_of_not_canSend s h
  cases a <;> simp [sendMessage, ha]

/-- C4 at a session keyed with `sk-abc` whose input is three spaces. -/
theorem sendMessage_noop_of_failed_precondition_witness :
    (jsTrim (chatting "sk-abc" "   ").input = "" ∨ (chatting "sk-abc" "   ").isLoading = true ∨
        (chatting "sk-abc" "   ").apiKey = "" ∨ (chatting "sk-abc" "   ").baseUrl = "" ∨
        (chatting "sk-abc" "   ").model = "") ∧
      ((sendMessage (envOf (.response true (.ok hiBody))) (chatting "sk-abc" "   ")).state
          = chatting "sk-abc" "   " ∧
        (sendMessage (envOf (.response true (.ok hiBody))) (chatting "sk-abc" "   ")).state.messages
          = (chatting "sk-abc" "   ").messages ∧
        (sendMessage (envOf (.response true (.ok hiBody))) (chatting "sk-abc" "   ")).state.isLoading
          = (chatting "sk-abc" "   ").isLoading ∧
        (sendMessage (envOf (.response true (.ok hiBody))) (chatting "sk-abc" "   ")).requests
          = []) :=
  ⟨by decide,
    sendMessage_noop_of_failed_precondition (envOf (.response true (.ok hiBody)))
      (chatting "sk-abc" "   ") (by decide)⟩

/-- C5 as stated fails on two success responses that carry no reply. When
the body is not JSON, `response.json()` throws; when the body is `null`,
reading `data.choices` throws. Either way the message appended after the
user message is the network-error one, not the placeholder. -/
theorem sendMessage_success_without_json_object :
    (sendMessage (envOf (.response true (.error "Unexpected end of JSON input")))
        (chatting "sk-abc" "hello")).state.messages
      = [⟨.user, .str "hello"⟩,
          ⟨.assistant, .str "❌ Error de red: Unexpected end of JSON input"⟩] ∧
    (sendMessage (envOf (.response true (.error "Unexpected end of JSON input")))
        (chatting "sk-abc" "hello")).state.messages
      ≠ [⟨.user, .str "hello"⟩, ⟨.assistant, .str "❌ Respuesta vacía"⟩] ∧
    (sendMessage (envOf (.response true (.ok .null))) (chatting "sk-abc" "hello")).state.messages
      = [⟨.user, .str "hello"⟩,
          ⟨.assistant,
            .str "❌ Error de red: Cannot read properties of null (reading 'choices')"⟩] ∧
    (sendMessage (envOf (.response true (.ok .null))) (chatting "sk-abc" "hello")).state.messages
      ≠ [⟨.user, .str "hello"⟩, ⟨.assistant, .str "❌ Respuesta vacía"⟩] := by
  have h1 : (sendMessage (envOf (.response true (.error "Unexpected end of JSON input")))
      (chatting "sk-abc" "hello")).state.messages
      = [⟨.user, .str "hello"⟩,
          ⟨.assistant, .str "❌ Error de red: Unexpected end of JSON input"⟩] := rfl
  have h2 : (sendMessage (envOf (.response true (.ok .null)))
      (chatting "sk-abc" "hello")).state.messages
      = [⟨.user, .str "hello"⟩,
          ⟨.assistant,
            .str "❌ Error de red: Cannot read properties of null (reading 'choices')"⟩] := rfl
  refine ⟨h1, ?_, h2, ?_⟩
  · rw [h1]; simp
  · rw [h2]; simp

/-- C5, amended: when the preconditions hold and the response is a success
one whose body parses as JSON to a value other than `null`, the history after
`sendMessage` is the history before, then the user message with the input as
typed, then one assistant message. Its content is the `content` of the
`message` of the first of `choices` when that is there and truthy (for a
string: not empty), and the placeholder otherwise. -/
theorem sendMessage_success_appends_reply (env : Env) (s : State) (data : Json)
    (hs : CanSend s) (hnet : env.net (fetchArgs s) = .response true (.ok data))
    (hdata : data ≠ .null) :
    (sendMessage env s).state.messages =
      s.messages ++
        [⟨.user, .str s.input⟩,
          ⟨.assistant,
            match firstChoiceContent data with
            | some content => if content.truthy then content else .str "❌ Respuesta vacía"
            | none => .str "❌ Respuesta vacía"⟩] := by
  rw [sendMessage_of_canSend env s hs]
  have horElse : orElse (firstChoiceContent data) "❌ Respuesta vacía" =
      match firstChoiceContent data with
      | some content => if content.truthy then content else .str "❌ Respuesta vacía"
      | none => .str "❌ Respuesta vacía" := by
    unfold orElse
    cases firstChoiceContent data <;> rfl
  rw [← horElse]
  cases data <;>
    first
    | exact absurd rfl hdata
    | simp [sendMessageResume, tryBlock, hnet, newMessages, userMessage]

/-- C5, amended, on the example of the claim: from an empty history, the
text `hello` and the body `{"choices":[{"message":{"content":"hi"}}]}`. -/
theorem sendMessage_success_appends_reply_witness :
    CanSend (chatting "sk-abc" "hello") ∧
      (envOf (.response true (.ok hiBody))).net (fetchArgs (chatting "sk-abc" "hello"))
        = .response true (.ok hiBody) ∧
      hiBody ≠ .null ∧
      (sendMessage (envOf (.response true (.ok hiBody))) (chatting "sk-abc" "hello")).state.messages
        = [⟨.user, .str "hello"⟩, ⟨.assistant, .str "hi"⟩] :=
  ⟨by decide, rfl, by simp [hiBody],
    sendMessage_success_appends_reply (envOf (.response true (.ok hiBody)))
      (chatting "sk-abc" "hello") hiBody (by decide) rfl (by simp [hiBody])⟩

/-- C6 as stated fails on two non-success responses. When the body is not
JSON (an empty body here), `response.json()` throws, and the last entry
carries the network-error marker with the parse error, not `❌ Error: ` with
the generic text. When the body is `{"error":{"message":{"toString":1}}}`,
the template literal of line 132 throws, and the last entry carries the
network-error marker again, not `❌ Error: ` followed by any text. -/
theorem sendMessage_error_response_without_json :
    (sendMessage (envOf (.response false (.error "Unexpected end of JSON input")))
        (chatting "sk-abc" "hello")).state.messages
      = [⟨.user, .str "hello"⟩,
          ⟨.assistant, .str "❌ Error de red: Unexpected end of JSON input"⟩] ∧
    (sendMessage (envOf (.response false (.error "Unexpected end of JSON input")))
        (chatting "sk-abc" "hello")).state.messages.getLast?
      ≠ some ⟨.assistant, .str "❌ Error: Error desconocido"⟩ ∧
    (sendMessage (envOf (.response false (.ok unprintableBody)))
        (chatting "sk-abc" "hello")).state.messages
      = [⟨.user, .str "hello"⟩,
          ⟨.assistant, .str "❌ Error de red: Cannot convert object to primitive value"⟩] ∧
    ∀ text, (sendMessage (envOf (.response false (.ok unprintableBody)))
        (chatting "sk-abc" "hello")).state.messages.getLast?
      ≠ some ⟨.assistant, .str ("❌ Error: " ++ text)⟩ := by
  have h1 : (sendMessage (envOf (.response false (.error "Unexpected end of JSON input")))
      (chatting "sk-abc" "hello")).state.messages
      = [⟨.user, .str "hello"⟩,
          ⟨.assistant, .str "❌ Error de red: Unexpected end of JSON input"⟩] := rfl
  have h2 : (sendMessage (envOf (.response false (.ok unprintableBody)))
      (chatting "sk-abc" "hello")).state.messages
      = [⟨.user, .str "hello"⟩,
          ⟨.assistant, .str "❌ Error de red: Cannot convert object to primitive value"⟩] := rfl
  refine ⟨h1, ?_, h2, ?_⟩
  · rw [h1]
    simp
  · intro text h
    rw [h2] at h
    simp only [List.getLast?_cons_cons, List.getLast?_singleton, Option.some.injEq,
      Message.mk.injEq, Json.str.injEq, true_and] at h
    have h3 := congrArg (fun t : String => t.data.get? 7) h
    obtain ⟨cs⟩ := text
    have h4 : (some ' ' : Option Char) = some ':' := h3
    exact absurd h4 (by decide)

/-- C6, amended: a failed send whose preconditions hold ends with the
history before, then the user message, then one assistant message, and
`sendMessage` returns a state in each case. On a non-success response whose
body parses as JSON: (a1) when `error.message` is there, truthy (for a
string: not empty) and converts to the string `text` (a string converts to
itself), the content is `❌ Error: ` followed by `text`; (a2) when
`error.message` is not there or is falsy, the content is `❌ Error: Error
desconocido`; (a3) when `error.message` is there and truthy but its
conversion to a string throws (an object with an own `toString` member, or an
array holding one), the content is `❌ Error de red: ` followed by the
description of that error. (a') On a non-success response whose body does not
parse, with parse error `d`, the content is `❌ Error de red: ` followed by
`d`. (b) On a transport failure with description `d`, the content is
`❌ Error de red: ` followed by `d`. -/
theorem sendMessage_failure_appends_error (env : Env) (s : State) (hs : CanSend s) :
    (∀ data m text, env.net (fetchArgs s) = .response false (.ok data) →
      errorMessage data = some m → m.truthy = true → m.render = some text →
      (sendMessage env s).state.messages =
        s.messages ++ [⟨.user, .str s.input⟩, ⟨.assistant, .str ("❌ Error: " ++ text)⟩]) ∧
    (∀ data, env.net (fetchArgs s) = .response false (.ok data) →
      (errorMessage data = none ∨ ∃ m, errorMessage data = some m ∧ m.truthy = false) →
      (sendMessage env s).state.messages =
        s.messages ++
          [⟨.user, .str s.input⟩, ⟨.assistant, .str "❌ Error: Error desconocido"⟩]) ∧
    (∀ data m, env.net (fetchArgs s) = .response false (.ok data) →
      errorMessage data = some m → m.truthy = true → m.render = none →
      (sendMessage env s).state.messages =
        s.messages ++
          [⟨.user, .str s.input⟩,
            ⟨.assistant, .str ("❌ Error de red: " ++ env.toPrimitiveMessage)⟩]) ∧
    (∀ d, env.net (fetchArgs s) = .response false (.error d) →
      (sendMessage env s).state.messages =
        s.messages ++ [⟨.user, .str s.input⟩, ⟨.assistant, .str ("❌ Error de red: " ++ d)⟩]) ∧
    (∀ d, env.net (fetchArgs s) = .rejected d →
      (sendMessage env s).state.messages =
        s.messages ++ [⟨.user, .str s.input⟩, ⟨.assistant, .str ("❌ Error de red: " ++ d)⟩]) := by
  rw [sendMessage_of_canSend env s hs]
  refine ⟨?_, ?_, ?_, ?_, ?_⟩
  · intro data m text hnet hm htruthy hrender
    have horElse : orElse (errorMessage data) "Error desconocido" = m := by
      simp [orElse, hm, htruthy]
    simp [sendMessageResume, tryBlock, hnet, horElse, hrender, newMessages, userMessage]
  · intro data hnet habsent
    have horElse : orElse (errorMessage data) "Error desconocido" = .str "Error desconocido" := by
      rcases habsent with h | ⟨m, h, hfalsy⟩
      · simp [orElse, h]
      · simp [orElse, h, hfalsy]
    simp [sendMessageResume, tryBlock, hnet, horElse, Json.render, newMessages, userMessage]
  · intro data m hnet hm htruthy hrender
    have horElse : orElse (errorMessage data) "Error desconocido" = m := by
      simp [orElse, hm, htruthy]
    simp [sendMessageResume, tryBlock, hnet, horElse, hrender, newMessages, userMessage]
  · intro d hnet
    simp [sendMessageResume, tryBlock, hnet, newMessages, userMessage]
  · intro d hnet
    simp [sendMessageResume, tryBlock, hnet, newMessages, userMessage]

/-- C6, amended, on each kind of failure: the bodies
`{"error":{"message":"bad key"}}`, `{}` and
`{"error":{"message":{"toString":1}}}`, an empty body, and a failed fetch. -/
theorem sendMessage_failure_appends_error_witness :
    CanSend (chatting "sk-abc" "hello") ∧
      (sendMessage (envOf (.response false (.ok badKeyBody)))
          (chatting "sk-abc" "hello")).state.messages
        = [⟨.user, .str "hello"⟩, ⟨.assistant, .str "❌ Error: bad key"⟩] ∧
      (sendMessage (envOf (.response false (.ok (.obj []))))
          (chatting "sk-abc" "hello")).state.messages
        = [⟨.user, .str "hello"⟩, ⟨.assistant, .str "❌ Error: Error desconocido"⟩] ∧
      (sendMessage (envOf (.response false (.ok unprintableBody)))
          (chatting "sk-abc" "hello")).state.messages
        = [⟨.user, .str "hello"⟩,
            ⟨.assistant, .str "❌ Error de red: Cannot convert object to primitive value"⟩] ∧
      (sendMessage (envOf (.response false (.error "Unexpected end of JSON input")))
          (chatting "sk-abc" "hello")).state.messages
        = [⟨.user, .str "hello"⟩,
            ⟨.assistant, .str "❌ Error de red: Unexpected end of JSON input"⟩] ∧
      (sendMessage (envOf (.rejected "Failed to fetch")) (chatting "sk-abc" "hello")).state.messages
        = [⟨.user, .str "hello"⟩, ⟨.assistant, .str "❌ Error de red: Failed to fetch"⟩] :=
  ⟨by decide,
    (sendMessage_failure_appends_error (envOf (.response false (.ok badKeyBody)))
      (chatting "sk-abc" "hello") (by decide)).1 badKeyBody (.str "bad key") "bad key"
      rfl rfl rfl rfl,
    (sendMessage_failure_appends_error (envOf (.response false (.ok (.obj []))))
      (chatting "sk-abc" "hello") (by decide)).2.1 (.obj []) rfl (Or.inl rfl),
    (sendMessage_failure_appends_error (envOf (.response false (.ok unprintableBody)))
      (chatting "sk-abc" "hello") (by decide)).2.2.1 unprintableBody
      (.obj [("toString", .num ⟨false, "1"⟩)]) rfl rfl rfl rfl,
    (sendMessage_failure_appends_error
      (envOf (.response false (.error "Unexpected end of JSON input")))
      (chatting "sk-abc" "hello") (by decide)).2.2.2.1 "Unexpected end of JSON input" rfl,
    (sendMessage_failure_appends_error (envOf (.rejected "Failed to fetch"))
      (chatting "sk-abc" "hello") (by decide)).2.2.2.2 "Failed to fetch" rfl⟩

/-! ## The request -/

/-- Reading a key of an object with a first member and a rest. -/
theorem Headers.get_cons (a b : String) (rest : Headers) (k : String) :
    Headers.get ((a, b) :: rest) k =
      match Headers.get rest k with
      | some v => some v
      | none => if a = k then some b else none := by
  simp [Headers.get]

/-- Reading `k'` after every member named `k` has been given the value `v`. -/
theorem Headers.get_map_set (o : Headers) (k v k' : String) :
    Headers.get (o.map (fun p => if p.1 == k then (k, v) else p)) k' =
      if k = k' then (if o.any (fun p => p.1 == k) then some v else none)
      else Headers.get o k' := by
  induction o with
  | nil => simp [Headers.get]
  | cons p rest ih =>
    obtain ⟨a, b⟩ := p
    by_cases hak : a = k
    · have hmap : List.map (fun p : String × String => if p.1 == k then (k, v) else p)
          ((a, b) :: rest)
          = (k, v) :: List.map (fun p : String × String => if p.1 == k then (k, v) else p) rest := by
        simp [hak]
      have hany : ((a, b) :: rest).any (fun p => p.1 == k) = true := by
        simp [hak]
      rw [hmap, hany, Headers.get_cons, ih, Headers.get_cons]
      by_cases hkk : k = k'
      · subst hkk
        rw [if_pos rfl, if_pos rfl]
        by_cases hr : rest.any (fun p => p.1 == k) = true
        · rw [if_pos hr]
          simp
        · rw [if_neg hr]
          simp
      · rw [if_neg hkk, if_neg hkk]
        subst hak
        cases Headers.get rest k' <;> simp [hkk]
    · have hmap : List.map (fun p : String × String => if p.1 == k then (k, v) else p)
          ((a, b) :: rest)
          = (a, b) :: List.map (fun p : String × String => if p.1 == k then (k, v) else p) rest := by
        simp [hak]
      have hany : ((a, b) :: rest).any (fun p => p.1 == k)
          = rest.any (fun p => p.1 == k) := by
        simp [hak]
      rw [hmap, hany, Headers.get_cons, ih, Headers.get_cons]
      by_cases hkk : k = k'
      · subst hkk
        rw [if_pos rfl, if_pos rfl, if_neg hak]
        by_cases hr : rest.any (fun p => p.1 == k) = true
        · rw [if_pos hr]
        · rw [if_neg hr]
      · rw [if_neg hkk, if_neg hkk]

/-- Reading `k'` after a member `k` with value `v` has been added at the
end. -/
theorem Headers.get_append_singleton (o : Headers) (k v k' : String) :
    Headers.get (o ++ [(k, v)]) k' = if k = k' then some v else Headers.get o k' := by
  induction o with
  | nil => simp [Headers.get]
  | cons p rest ih =>
    obtain ⟨a, b⟩ := p
    rw [List.cons_append, Headers.get_cons, ih, Headers.get_cons]
    by_cases hkk : k = k'
    · simp [hkk]
    · simp [hkk]

/-- Reading after a write: the key written reads as the value written, every
other key as before. -/
theorem Headers.get_set (o : Headers) (k v k' : String) :
    Headers.get (o.set k v) k' = if k = k' then some v else Headers.get o k' := by
  unfold Headers.set
  by_cases hany : o.any (fun p => p.1 == k) = true
  · rw [if_pos hany, Headers.get_map_set, if_pos hany]
  · rw [if_neg hany, Headers.get_append_singleton]

/-- Reading after a spread: a key of `src` reads as in `src`, every other
key as in `o`. -/
theorem Headers.get_spread (o src : Headers) (k : String) :
    Headers.get (Headers.spread o src) k =
      match Headers.get src k with
      | some v => some v
      | none => Headers.get o k := by
  unfold Headers.spread
  induction src generalizing o with
  | nil => rfl
  | cons p rest ih =>
    obtain ⟨a, b⟩ := p
    rw [List.foldl_cons, ih, Headers.get_cons, Headers.get_set]
    cases Headers.get rest k with
    | some v => rfl
    | none =>
      by_cases hak : a = k
      · simp [hak]
      · simp [hak]

/-- C7: in every state in which the preconditions hold and whose extra
headers `H` have no `Content-Type` and no `Authorization` member,
`sendMessage` issues exactly one request. It is a POST to the base URL
followed by `/chat/completions`. Its headers are `Content-Type:
application/json`, `Authorization: Bearer ` followed by the key, every entry
of `H`, and no other. Its body has the model, the history followed by the
user message with the input as typed, `max_tokens` 1000 and `temperature`
0.7. -/
theorem sendMessage_request (env : Env) (s : State) (hs : CanSend s)
    (hct : s.extraHeaders.get "Content-Type" = none)
    (hauth : s.extraHeaders.get "Authorization" = none) :
    ∃ req, (sendMessage env s).requests = [req] ∧
      req.method = "POST" ∧
      req.url = s.baseUrl ++ "/chat/completions" ∧
      req.headers.get "Content-Type" = some "application/json" ∧
      req.headers.get "Authorization" = some ("Bearer " ++ s.apiKey) ∧
      (∀ k v, s.extraHeaders.get k = some v → req.headers.get k = some v) ∧
      (∀ k v, req.headers.get k = some v →
        (k, v) = ("Content-Type", "application/json") ∨
        (k, v) = ("Authorization", "Bearer " ++ s.apiKey) ∨
        s.extraHeaders.get k = some v) ∧
      req.body.model = s.model ∧
      req.body.messages = s.messages ++ [⟨.user, .str s.input⟩] ∧
      req.body.max_tokens = 1000 ∧
      req.body.temperature = 7 / 10 := by
  have hheaders : ∀ k, (fetchArgs s).headers.get k =
      match s.extraHeaders.get k with
      | some v => some v
      | none =>
        Headers.get
          [("Content-Type", "application/json"), ("Authorization", "Bearer " ++ s.apiKey)] k :=
    fun k => Headers.get_spread _ _ k
  refine ⟨fetchArgs s, ?_, rfl, rfl, ?_, ?_, ?_, ?_, rfl, rfl, rfl, rfl⟩
  · rw [sendMessage_of_canSend env s hs]
  · rw [hheaders, hct]
    simp [Headers.get]
  · rw [hheaders, hauth]
    simp [Headers.get]
  · intro k v hk
    rw [hheaders, hk]
  · intro k v hk
    rw [hheaders] at hk
    cases hH : s.extraHeaders.get k with
    | some w =>
      rw [hH] at hk
      exact Or.inr (Or.inr hk)
    | none =>
      rw [hH] at hk
      by_cases h1 : "Authorization" = k
      · subst h1
        simp [Headers.get] at hk
        exact Or.inr (Or.inl (by rw [hk]))
      · by_cases h2 : "Content-Type" = k
        · subst h2
          simp [Headers.get] at hk
          exact Or.inl (by rw [hk])
        · simp [Headers.get, h1, h2] at hk

/-- C7 at a session keyed with `sk-abc`, the text `hello` and the
`anthropic-version` entry as extra headers: the request carries the three
headers. -/
theorem sendMessage_request_witness :
    CanSend (chattingWithVersionHeader "sk-abc" "hello") ∧
      (chattingWithVersionHeader "sk-abc" "hello").extraHeaders.get "Content-Type" = none ∧
      (chattingWithVersionHeader "sk-abc" "hello").extraHeaders.get "Authorization" = none ∧
      (chattingWithVersionHeader "sk-abc" "hello").extraHeaders.get "anthropic-version"
        = some "2023-06-01" ∧
      ∃ req, (sendMessage (envOf (.response true (.ok hiBody)))
          (chattingWithVersionHeader "sk-abc" "hello")).requests = [req] ∧
        req.method = "POST" ∧
        req.url = "https://api.openai.com/v1/chat/completions" ∧
        req.headers.get "Content-Type" = some "application/json" ∧
        req.headers.get "Authorization" = some "Bearer sk-abc" ∧
        req.headers.get "anthropic-version" = some "2023-06-01" ∧
        req.body.model = "gpt-3.5-turbo" ∧
        req.body.messages = [⟨.user, .str "hello"⟩] ∧
        req.body.max_tokens = 1000 ∧
        req.body.temperature = 7 / 10 := by
  refine ⟨by decide, by decide, by decide, by decide, ?_⟩
  obtain ⟨req, h1, h2, h3, h4, h5, h6, _, h8, h9, h10, h11⟩ :=
    sendMessage_request (envOf (.response true (.ok hiBody)))
      (chattingWithVersionHeader "sk-abc" "hello") (by decide) (by decide) (by decide)
  exact ⟨req, h1, h2, h3, h4, h5, h6 "anthropic-version" "2023-06-01" (by decide), h8, h9,
    h10, h11⟩

/-! ## Confirming a key -/

/-- A prefix free of white space reaches into `t ++ w`, with `w` all white
space, no further than `t`. -/
theorem isPrefixOf_append_whitespace (p t w : List Char)
    (hp : ∀ c ∈ p, isJsWhitespace c = false) (hw : ∀ c ∈ w, isJsWhitespace c = true) :
    p.isPrefixOf (t ++ w) = p.isPrefixOf t := by
  induction t generalizing p with
  | nil =>
    cases p with
    | nil => cases w <;> rfl
    | cons c p1 =>
      cases w with
      | nil => rfl
      | cons d w1 =>
        have hc : isJsWhitespace c = false := hp c (List.mem_cons_self _ _)
        have hd : isJsWhitespace d = true := hw d (List.mem_cons_self _ _)
        have hne : c ≠ d := by
          intro e
          rw [e, hd] at hc
          cases hc
        simp [List.isPrefixOf, hne]
  | cons a t1 ih =>
    cases p with
    | nil => rfl
    | cons c p1 =>
      have hp1 : ∀ x ∈ p1, isJsWhitespace x = false :=
        fun x hx => hp x (List.mem_cons_of_mem _ hx)
      simp only [List.cons_append, List.isPrefixOf, List.append_eq, ih p1 hp1]

/-- A non-empty run free of white space does not occur in white space. -/
theorem includesChars_whitespace (p w : List Char) (hne : p ≠ [])
    (hp : ∀ c ∈ p, isJsWhitespace c = false) (hw : ∀ c ∈ w, isJsWhitespace c = true) :
    includesChars p w = false := by
  induction w with
  | nil =>
    cases p with
    | nil => exact absurd rfl hne
    | cons c p1 => rfl
  | cons d w1 ih =>
    have hw1 : ∀ x ∈ w1, isJsWhitespace x = true :=
      fun x hx => hw x (List.mem_cons_of_mem _ hx)
    have h0 := isPrefixOf_append_whitespace p [] (d :: w1) hp hw
    simp only [List.nil_append] at h0
    have hnil : p.isPrefixOf [] = false := by
      cases p with
      | nil => exact absurd rfl hne
      | cons c p1 => rfl
    simp only [includesChars, h0, hnil, ih hw1, Bool.or_self]

/-- A non-empty run free of white space occurs in `t ++ w`, with `w` all
white space, exactly when it occurs in `t`. -/
theorem includesChars_append_whitespace (p t w : List Char) (hne : p ≠ [])
    (hp : ∀ c ∈ p, isJsWhitespace c = false) (hw : ∀ c ∈ w, isJsWhitespace c = true) :
    includesChars p (t ++ w) = includesChars p t := by
  induction t with
  | nil =>
    have hnil : p.isPrefixOf [] = false := by
      cases p with
      | nil => exact absurd rfl hne
      | cons c p1 => rfl
    simp only [List.nil_append, includesChars_whitespace p w hne hp hw, includesChars, hnil]
  | cons a t1 ih =>
    have h0 := isPrefixOf_append_whitespace p (a :: t1) w hp hw
    simp only [List.cons_append] at h0
    simp only [List.cons_append, includesChars, List.append_eq, h0, ih]

/-- What `trimEndChars` strips is white space. -/
theorem trimEndChars_append (cs : List Char) :
    ∃ w, (∀ c ∈ w, isJsWhitespace c = true) ∧ cs = trimEndChars cs ++ w := by
  refine ⟨(cs.reverse.takeWhile isJsWhitespace).reverse, ?_, ?_⟩
  · intro c hc
    exact List.mem_takeWhile_imp (List.mem_reverse.mp hc)
  · unfold trimEndChars
    rw [← List.reverse_append, List.takeWhile_append_dropWhile, List.reverse_reverse]

/-- A key that does not begin with white space matches the same providers
as the key trimmed. -/
theorem match_trim (key : String)
    (h : ∀ c, key.data.head? = some c → isJsWhitespace c = false) :
    ∀ p ∈ PROVIDER_MAP, p.«match» (jsTrim key) = p.«match» key := by
  have hdrop : key.data.dropWhile isJsWhitespace = key.data := by
    cases hk : key.data with
    | nil => rfl
    | cons c cs =>
      have hc : isJsWhitespace c = false := h c (by rw [hk]; rfl)
      simp [List.dropWhile, hc]
  obtain ⟨w, hw, hkey⟩ := trimEndChars_append key.data
  have htrim : (jsTrim key).data = trimEndChars key.data := by
    simp only [jsTrim, hdrop]
  have hpre : ∀ q : String, (∀ c ∈ q.data, isJsWhitespace c = false) →
      jsStartsWith (jsTrim key) q = jsStartsWith key q := by
    intro q hq
    unfold jsStartsWith
    rw [htrim]
    conv_rhs => rw [hkey]
    exact (isPrefixOf_append_whitespace q.data _ w hq hw).symm
  have hinc : ∀ q : String, q.data ≠ [] → (∀ c ∈ q.data, isJsWhitespace c = false) →
      jsIncludes (jsTrim key) q = jsIncludes key q := by
    intro q hne hq
    unfold jsIncludes
    rw [htrim]
    conv_rhs => rw [hkey]
    exact (includesChars_append_whitespace q.data _ w hne hq hw).symm
  intro p hp
  simp only [PROVIDER_MAP, List.mem_cons, List.mem_singleton, List.not_mem_nil,
    or_false] at hp
  rcases hp with rfl | rfl | rfl | rfl | rfl | rfl
  · exact hpre "sk-" (by decide)
  · exact hpre "gsk_" (by decide)
  · exact hpre "sk-ant-" (by decide)
  · exact hinc "mistral" (by decide) (by decide)
  · exact hpre "together-" (by decide)
  · exact hpre "fk-" (by decide)

/-- The loop depends on the key through the `match` tests only. -/
theorem detectProviderLoop_congr (k1 k2 : String) (ps : List Provider) (s : State)
    (h : ∀ p ∈ ps, p.«match» k1 = p.«match» k2) :
    detectProviderLoop k1 ps s = detectProviderLoop k2 ps s := by
  induction ps with
  | nil => rfl
  | cons p rest ih =>
    have hp := h p (List.mem_cons_self _ _)
    have hrest : ∀ q ∈ rest, q.«match» k1 = q.«match» k2 :=
      fun q hq => h q (List.mem_cons_of_mem _ hq)
    simp only [detectProviderLoop, hp, ih hrest]

/-- C10 as stated fails: with the key `  sk-abc`, two spaces in front,
"Start chat" is enabled and pins manual mode with the label `Unknown` and
no base URL, while the trimmed key `sk-abc` classifies as OpenAI. -/
theorem submitKey_does_not_trim :
    jsTrim "  sk-abc" = "sk-abc" ∧
      (submitKey { initialState with apiKey := "  sk-abc" }).providerName = "Unknown" ∧
      (submitKey { initialState with apiKey := "  sk-abc" }).manualMode = true ∧
      (submitKey { initialState with apiKey := "  sk-abc" }).baseUrl = "" ∧
      (detectProvider (jsTrim "  sk-abc") { initialState with apiKey := "  sk-abc" }).providerName
        = "OpenAI" ∧
      (detectProvider (jsTrim "  sk-abc") { initialState with apiKey := "  sk-abc" }).manualMode
        = false ∧
      (detectProvider (jsTrim "  sk-abc") { initialState with apiKey := "  sk-abc" }).baseUrl
        = "https://api.openai.com/v1" := by
  decide

/-- C10, amended: "Start chat" classifies the key as stored, without
trimming it. For every key that does not begin with white space, white space
at its end or not, the parameters it pins are those obtained by classifying
the trimmed key. -/
theorem submitKey_classifies_as_trimmed (s : State)
    (h : ∀ c, s.apiKey.data.head? = some c → isJsWhitespace c = false) :
    submitKey s = { detectProvider s.apiKey s with showApiKeyInput := false } ∧
      submitKey s = { detectProvider (jsTrim s.apiKey) s with showApiKeyInput := false } := by
  refine ⟨rfl, ?_⟩
  have e : detectProvider (jsTrim s.apiKey) s = detectProvider s.apiKey s :=
    detectProviderLoop_congr _ _ PROVIDER_MAP s (match_trim s.apiKey h)
  rw [e]
  rfl

/-- C10, amended, at the key `sk-abc` followed by a space and a line feed:
the OpenAI parameters are pinned. -/
theorem submitKey_classifies_as_trimmed_witness :
    (∀ c, ({ initialState with apiKey := "sk-abc \n" } : State).apiKey.data.head? = some c →
        isJsWhitespace c = false) ∧
      jsTrim "sk-abc \n" = "sk-abc" ∧
      (submitKey { initialState with apiKey := "sk-abc \n" }).providerName = "OpenAI" ∧
      submitKey { initialState with apiKey := "sk-abc \n" }
        = { detectProvider (jsTrim "sk-abc \n") { initialState with apiKey := "sk-abc \n" }
            with showApiKeyInput := false } :=
  ⟨by intro c hc; cases hc; decide, by decide, by decide,
    (submitKey_classifies_as_trimmed { initialState with apiKey := "sk-abc \n" }
      (by intro c hc; cases hc; decide)).2⟩

/-! ## The clear-chat and change-key buttons -/

/-- C8: `clearHistory` empties the history, whatever it held, and leaves
the key, base URL, model, extra headers, provider label and manual-mode flag
as they were. -/
theorem clearHistory_empties_history_only (s : State) :
    (clearHistory s).messages = [] ∧
      (clearHistory s).apiKey = s.apiKey ∧
      (clearHistory s).baseUrl = s.baseUrl ∧
      (clearHistory s).model = s.model ∧
      (clearHistory s).extraHeaders = s.extraHeaders ∧
      (clearHistory s).providerName = s.providerName ∧
      (clearHistory s).manualMode = s.manualMode :=
  ⟨rfl, rfl, rfl, rfl, rfl, rfl, rfl⟩

/-- C9 as stated fails: in a session keyed with `sk-abc`, `resetKey` shows
the key-entry screen but the key is still `sk-abc`, not empty, and base URL,
model and label are still those of that key. -/
theorem resetKey_keeps_key_and_params :
    (chatting "sk-abc" "").showApiKeyInput = false ∧
      (resetKey (chatting "sk-abc" "")).showApiKeyInput = true ∧
      (resetKey (chatting "sk-abc" "")).apiKey = "sk-abc" ∧
      (resetKey (chatting "sk-abc" "")).apiKey ≠ "" ∧
      (resetKey (chatting "sk-abc" "")).baseUrl = "https://api.openai.com/v1" ∧
      (resetKey (chatting "sk-abc" "")).model = "gpt-3.5-turbo" ∧
      (resetKey (chatting "sk-abc" "")).providerName = "OpenAI" := by
  decide

/-- C9, amended: `resetKey` returns the session to the key-entry screen and
changes nothing else: from every state, the key, base URL, model, extra
headers, provider label, manual-mode flag, history, input and pending flag
after it are those before it. -/
theorem resetKey_only_shows_key_entry (s : State) :
    resetKey s = { s with showApiKeyInput := true } ∧
      (resetKey s).showApiKeyInput = true ∧
      (resetKey s).apiKey = s.apiKey ∧
      (resetKey s).baseUrl = s.baseUrl ∧
      (resetKey s).model = s.model ∧
      (resetKey s).extraHeaders = s.extraHeaders ∧
      (resetKey s).providerName = s.providerName ∧
      (resetKey s).manualMode = s.manualMode ∧
      (resetKey s).messages = s.messages ∧
      (resetKey s).input = s.input ∧
      (resetKey s).isLoading = s.isLoading :=
  ⟨rfl, rfl, rfl, rfl, rfl, rfl, rfl, rfl, rfl, rfl, rfl⟩

end App
